import Mathlib

/-!
Shallow embedding of the Safety Gate (query validator) and Credential Vault
(cipher + master-key store) of the rds-cli repository.

The validator is embedded from src/validator.rs.  The SQL parser
(the sqlparser crate) is an external capability: the embedding takes the
parsed statement list alongside the raw SQL text, mirroring how
`validate` hands `(sql, &statements)` to `apply_limit_policy` and each
statement to `validate_statement_type`.  Statement nodes are modelled with
exactly the constructors the validator's `match` arms inspect, plus one
catch-all constructor for every other sqlparser node.
-/

deriving instance DecidableEq for Except

/-- Mirror of `config::SafetyPolicy` (src/config.rs): `default_limit: u32`,
`max_limit: u32`, `timeout_seconds: u64`, `allowed_operations: Vec<String>`.
Machine integers are modelled as `Nat`; the validator only widens them
(`as u64`) and never overflows. -/
structure SafetyPolicy where
  default_limit : Nat
  max_limit : Nat
  timeout_seconds : Nat
  allowed_operations : List String
  deriving DecidableEq

/-- Mirror of `sqlparser::ast::Value` as far as `extract_number_from_expr`
inspects it: a numeric literal carrying its source text, or any other value. -/
inductive SqlValue where
  | number (text : String)
  | otherValue
  deriving DecidableEq

/-- Mirror of `sqlparser::ast::Expr` as far as the validator inspects it:
a value expression or any other expression form. -/
inductive SqlExpr where
  | value (v : SqlValue)
  | otherExpr
  deriving DecidableEq

/-- Mirror of `sqlparser::ast::LimitClause`.  `LimitOffset` carries an
optional limit expression; `OffsetCommaLimit` (MySQL `LIMIT off, lim`)
carries a mandatory one.  The offset sub-expressions are ignored by the
validator (`..` patterns) and are omitted. -/
inductive LimitClause where
  | limitOffset (limit : Option SqlExpr)
  | offsetCommaLimit (limit : SqlExpr)
  deriving DecidableEq

/-- Mirror of `sqlparser::ast::Statement` as far as
`validate_statement_type` and `apply_limit_policy` inspect it: the ten
matched node shapes plus a catch-all for every other sqlparser statement.
A `query` node carries its `limit_clause` field, the only part of the
query the validator reads. -/
inductive Stmt where
  | query (limitClause : Option LimitClause)
  | explainStmt
  | showTables
  | showColumns
  | insertStmt
  | updateStmt
  | deleteStmt
  | createTable
  | dropStmt
  | alterTable
  | truncateStmt
  | other
  deriving DecidableEq

/-- The dialect actually selected by `QueryValidator::new`; the source's
`Box<dyn Dialect>` only ever holds one of these two. -/
inductive Dialect where
  | postgresql
  | mysql
  deriving DecidableEq

/-- Mirror of `QueryValidator { policy, dialect }`. -/
structure QueryValidator where
  policy : SafetyPolicy
  dialect : Dialect
  deriving DecidableEq

/-- Typed rendering of the validator's `anyhow::bail!` failures
(src/validator.rs), matching the spec taxonomy.  Each constructor carries
the context the corresponding message interpolates. -/
inductive ValidationError where
  | emptyQuery
  | unsupportedStatement
  | operationNotAllowed (stmtType : String) (permitted : List String)
  | limitExceeded (requested : Nat) (max : Nat)
  deriving DecidableEq

/-- ASCII lower-casing of one character, as in Rust's
`u8::to_ascii_lowercase`: only `A`..`Z` move, every other character is
unchanged. -/
def toAsciiLower (c : Char) : Char :=
  if 'A' ≤ c ∧ c ≤ 'Z' then Char.ofNat (c.toNat + 32) else c

/-- Mirror of Rust's `str::eq_ignore_ascii_case`.  Rust folds ASCII case
byte-wise; since non-ASCII characters are untouched by ASCII folding and
UTF-8 is injective, character-wise folding is equivalent. -/
def eqIgnoreAsciiCase (a b : String) : Bool :=
  a.data.map toAsciiLower == b.data.map toAsciiLower

/-- Mirror of Rust's `str::parse::<u64>`: an optional leading `+`, then
one or more ASCII digits, rejecting values above `u64::MAX`. -/
def parseU64 (s : String) : Option Nat :=
  let digits := if s.data.head? = some '+' then s.data.tail else s.data
  if digits = [] then none
  else if digits.all Char.isDigit then
    let v := digits.foldl (fun acc c => acc * 10 + (c.toNat - 48)) 0
    if v < 2 ^ 64 then some v else none
  else none

/-- The statement class assigned by the `match` in
`validate_statement_type`; `none` is the catch-all arm that bails with
`Unsupported statement type`. -/
def statementType : Stmt → Option String
  | .query _ => some "SELECT"
  | .explainStmt => some "EXPLAIN"
  | .showTables => some "SHOW"
  | .showColumns => some "SHOW"
  | .insertStmt => some "INSERT"
  | .updateStmt => some "UPDATE"
  | .deleteStmt => some "DELETE"
  | .createTable => some "CREATE"
  | .dropStmt => some "DROP"
  | .alterTable => some "ALTER"
  | .truncateStmt => some "TRUNCATE"
  | .other => none

/-- Mirror of `QueryValidator::validate_statement_type`. -/
def validateStatementType (policy : SafetyPolicy) (s : Stmt) :
    Except ValidationError Unit :=
  match statementType s with
  | none => .error .unsupportedStatement
  | some t =>
    if policy.allowed_operations.any (fun op => eqIgnoreAsciiCase op t) then
      .ok ()
    else
      .error (.operationNotAllowed t policy.allowed_operations)

/-- The `for statement in &statements { self.validate_statement_type(statement)? }`
loop of `validate`: first error wins. -/
def validateAllStatements (policy : SafetyPolicy) :
    List Stmt → Except ValidationError Unit
  | [] => .ok ()
  | s :: rest =>
    match validateStatementType policy s with
    | .error e => .error e
    | .ok _ => validateAllStatements policy rest

/-- Mirror of `QueryValidator::extract_number_from_expr`: a literal
`Value::Number` parsed as `u64`, anything else is `None`. -/
def extractNumberFromExpr : SqlExpr → Option Nat
  | .value (.number n) => parseU64 n
  | .value .otherValue => none
  | .otherExpr => none

/-- Mirror of `QueryValidator::extract_limit_from_query`, reading the
query's `limit_clause` field. -/
def extractLimitFromQuery : Option LimitClause → Option Nat
  | some (.limitOffset limit) =>
    match limit with
    | some limitExpr => extractNumberFromExpr limitExpr
    | none => none
  | some (.offsetCommaLimit limit) => extractNumberFromExpr limit
  | none => none

/-- Mirror of `QueryValidator::extract_limit`: the loop `return`s on the
first `Statement::Query` it meets, even when that query yields no
literal limit. -/
def extractLimit : List Stmt → Option Nat
  | [] => none
  | .query limitClause :: _ => extractLimitFromQuery limitClause
  | _ :: rest => extractLimit rest

/-- The `matches!(s, Statement::Query(_))` test of `apply_limit_policy`. -/
def isQueryStmt : Stmt → Bool
  | .query _ => true
  | _ => false

/-- Mirror of Rust's `str::trim_end_matches(';')`: strip every trailing
semicolon. -/
def trimEndSemicolons (s : String) : String :=
  String.mk ((s.data.reverse.dropWhile (fun c => c = ';')).reverse)

/-- Mirror of `QueryValidator::apply_limit_policy`. -/
def applyLimitPolicy (policy : SafetyPolicy) (sql : String)
    (statements : List Stmt) : Except ValidationError String :=
  let is_select := statements.all isQueryStmt
  if !is_select then .ok sql
  else
    match extractLimit statements with
    | some userLimit =>
      if userLimit > policy.max_limit then
        .error (.limitExceeded userLimit policy.max_limit)
      else .ok sql
    | none =>
      .ok (trimEndSemicolons sql ++ " LIMIT " ++ toString policy.default_limit)

/-- Mirror of `QueryValidator::new`: an unrecognized dialect tag silently
falls back to PostgreSQL (the `_` arm of the match). -/
def dialectFor (dbType : String) : Dialect :=
  if dbType = "postgresql" then .postgresql
  else if dbType = "mysql" then .mysql
  else .postgresql

/-- Mirror of `QueryValidator::new` (total: construction cannot fail). -/
def QueryValidator.new (policy : SafetyPolicy) (dbType : String) :
    QueryValidator :=
  { policy := policy, dialect := dialectFor dbType }

/-- Mirror of `QueryValidator::validate`, taking the statement list the
external sqlparser produced for `sql` under the validator's dialect. -/
def QueryValidator.validate (v : QueryValidator) (sql : String)
    (statements : List Stmt) : Except ValidationError String :=
  if statements.isEmpty then .error .emptyQuery
  else
    match validateAllStatements v.policy statements with
    | .error e => .error e
    | .ok _ => applyLimitPolicy v.policy sql statements

/-!
Embedding of the Cipher (src/crypto.rs).  The repository composes four
external crates around its own token logic: the `chacha20poly1305` AEAD,
the `base64` STANDARD engine, `rand` for the nonce, and `String::from_utf8`.
Those externals enter the embedding as an explicit interface record plus,
for the nonce, an explicit argument (the randomness the encryptor draws);
the token wrapping, prefix/length checks and error dispatch — the code of
crypto.rs itself — are embedded concretely.  Bytes are `Nat` values below
256.
-/

/-- Mirror of `const NONCE_SIZE: usize = 12`. -/
def NONCE_SIZE : Nat := 12

/-- Interface of the external crates used by `Crypto`:
`chacha20poly1305::ChaCha20Poly1305` (`aeadEncrypt key nonce plaintext`
returns ciphertext-with-tag; `aeadDecrypt` returns `none` exactly when tag
verification fails), the `base64` STANDARD engine, and UTF-8
encoding/decoding of Rust strings (`utf8Decode` is `String::from_utf8`,
`none` on invalid UTF-8). -/
structure CryptoExternals where
  aeadEncrypt : List Nat → List Nat → List Nat → List Nat
  aeadDecrypt : List Nat → List Nat → List Nat → Option (List Nat)
  b64Encode : List Nat → String
  b64Decode : String → Option (List Nat)
  utf8Encode : String → List Nat
  utf8Decode : List Nat → Option String

/-- Typed rendering of the `anyhow` failures of `Crypto::decrypt`, one
constructor per distinct `context`/`bail!`/`map_err` message. -/
inductive DecryptError where
  | invalidFormat
  | invalidBase64
  | invalidData
  | decryptionFailed
  | invalidUtf8
  deriving DecidableEq

/-- Mirror of `Crypto::encrypt` with the internally generated random
nonce made explicit: encrypt the UTF-8 bytes under the nonce, prepend the
nonce, base64 the whole and tag it with the `enc:` prefix.  (The source's
`Result` only fails on a cipher-internal error the AEAD interface here
does not model.) -/
def Crypto.encrypt (ext : CryptoExternals) (key : List Nat)
    (nonceBytes : List Nat) (plaintext : String) : String :=
  let ciphertext := ext.aeadEncrypt key nonceBytes (ext.utf8Encode plaintext)
  let result := nonceBytes ++ ciphertext
  "enc:" ++ ext.b64Encode result

/-- Mirror of `Crypto::decrypt`: strip the `enc:` prefix, base64-decode,
split off the 12-byte nonce, AEAD-decrypt, and decode the plaintext as
UTF-8; each failure site maps to its own error. -/
def Crypto.decrypt (ext : CryptoExternals) (key : List Nat)
    (encrypted : String) : Except DecryptError String :=
  if "enc:".data.isPrefixOf encrypted.data then
    match ext.b64Decode (String.mk (encrypted.data.drop 4)) with
    | none => .error .invalidBase64
    | some data =>
      if data.length < NONCE_SIZE then .error .invalidData
      else
        match ext.aeadDecrypt key (data.take NONCE_SIZE) (data.drop NONCE_SIZE) with
        | none => .error .decryptionFailed
        | some plaintextBytes =>
          match ext.utf8Decode plaintextBytes with
          | none => .error .invalidUtf8
          | some s => .ok s
  else .error .invalidFormat

/-!
Embedding of the Master Key Store (src/secret.rs).  The filesystem state
the function touches is the single key file at
`config_base_dir()/.master.key`, modelled as its optional contents; the
fresh random key `crypto::generate_key()` would draw is an explicit
argument.  The base64 STANDARD engine is the same external interface as in
the Cipher.
-/

/-- Typed rendering of the `anyhow` failures of
`get_or_create_master_key` that depend on the stored contents (I/O errors
such as an unreadable directory are outside the state model). -/
inductive KeyStoreError where
  | invalidKeyEncoding
  | invalidKeySize
  deriving DecidableEq

/-- The key file's state: `none` when `key_path.exists()` is false. -/
structure KeyStoreState where
  keyFile : Option String
  deriving DecidableEq

/-- Mirror of Rust's `str::trim`: strip whitespace from both ends. -/
def trimString (s : String) : String :=
  String.mk
    (((s.data.dropWhile Char.isWhitespace).reverse.dropWhile
      Char.isWhitespace).reverse)

/-- Mirror of `SecretManager::get_or_create_master_key`, returning the key
with the resulting store state.  When the file exists it is read,
trimmed, base64-decoded and length-checked — the state is untouched; when
absent, the fresh 32-byte key is written base64-encoded (the permission
bits of the written file are outside the state model). -/
def getOrCreateMasterKey (b64Encode : List Nat → String)
    (b64Decode : String → Option (List Nat)) (st : KeyStoreState)
    (freshKey : List Nat) :
    Except KeyStoreError (List Nat × KeyStoreState) :=
  match st.keyFile with
  | some contents =>
    match b64Decode (trimString contents) with
    | none => .error .invalidKeyEncoding
    | some decoded =>
      if decoded.length ≠ 32 then .error .invalidKeySize
      else .ok (decoded, st)
  | none => .ok (freshKey, { keyFile := some (b64Encode freshKey) })

/-- Mirror of `SecretManager::reset_master_key`: delete the key file when
present. -/
def resetMasterKey (_st : KeyStoreState) : KeyStoreState :=
  { keyFile := none }

/-- Claim-statement helper: the literal numeric LIMIT a statement carries,
when it is a query (the quantity C1 speaks about). -/
def stmtLiteralLimit : Stmt → Option Nat
  | .query limitClause => extractLimitFromQuery limitClause
  | _ => none

/-- Claim-statement helper: whether a statement carries a literal numeric
LIMIT strictly greater than `maxL`. -/
def exceedsMax (maxL : Nat) (s : Stmt) : Bool :=
  match stmtLiteralLimit s with
  | some n => maxL < n
  | none => false

/-- Claim-statement helper: discriminator for the `OperationNotAllowed`
error shape. -/
def isOperationNotAllowed : ValidationError → Bool
  | .operationNotAllowed _ _ => true
  | _ => false

/-- The policy of the repository's own `create_test_policy` fixture. -/
def samplePolicy : SafetyPolicy :=
  { default_limit := 1000, max_limit := 10000, timeout_seconds := 10,
    allowed_operations := ["SELECT"] }

/-- Batch for the C1 counterexample: `SELECT 1; SELECT 2 LIMIT 50` parsed —
two query nodes, only the second carrying a literal limit. -/
def c1Stmts : List Stmt :=
  [Stmt.query none,
   Stmt.query (some (.limitOffset (some (.value (.number "50")))))]

/-- Policy for the C1 counterexample: `max_limit` far below the second
statement's literal limit. -/
def c1Policy : SafetyPolicy :=
  { default_limit := 100, max_limit := 10, timeout_seconds := 10,
    allowed_operations := ["SELECT"] }

/-- Batch for the C3 counterexample: `BEGIN; DELETE FROM users` parsed —
a transaction statement (no matching class arm) followed by a delete. -/
def c3Stmts : List Stmt :=
  [Stmt.other, Stmt.deleteStmt]

/-- Concrete instantiation of the external-crate interface for witnesses
of the success paths: a trivial AEAD (identity cipher whose tag
verification always succeeds) and injective byte/string codecs. -/
def happyExternals : CryptoExternals where
  aeadEncrypt := fun _ _ pt => pt
  aeadDecrypt := fun _ _ ct => some ct
  b64Encode := fun l => String.mk (l.map Char.ofNat)
  b64Decode := fun s => some (s.data.map Char.toNat)
  utf8Encode := fun s => s.data.map Char.toNat
  utf8Decode := fun l => some (String.mk (l.map Char.ofNat))

/-- Concrete instantiation for witnesses of the error paths: base64
decoding rejects the empty remainder and AEAD tag verification always
fails. -/
def failingExternals : CryptoExternals where
  aeadEncrypt := fun _ _ pt => pt
  aeadDecrypt := fun _ _ _ => none
  b64Encode := fun _ => ""
  b64Decode := fun s => if s = "" then none else some (s.data.map Char.toNat)
  utf8Encode := fun s => s.data.map Char.toNat
  utf8Decode := fun _ => none

/-- Concrete instantiation for the C10 witness: tag verification
succeeds but UTF-8 decoding of the decrypted bytes fails. -/
def utf8FailingExternals : CryptoExternals where
  aeadEncrypt := fun _ _ pt => pt
  aeadDecrypt := fun _ _ ct => some ct
  b64Encode := fun l => String.mk (l.map Char.ofNat)
  b64Decode := fun s => some (s.data.map Char.toNat)
  utf8Encode := fun s => s.data.map Char.toNat
  utf8Decode := fun _ => none

/-- Concrete base64-engine stand-in for the key-store witness. -/
def wB64e : List Nat → String := fun l => String.mk (l.map Char.ofNat)

/-- Concrete base64-decoder stand-in for the key-store witness, a left
inverse of `wB64e`. -/
def wB64d : String → Option (List Nat) := fun s => some (s.data.map Char.toNat)

/-!
Theorems.  Helper lemmas first, then one theorem per claim (with its
witness or counterexample).
-/

theorem validateStatementType_query_ok (policy : SafetyPolicy)
    (lc : Option LimitClause)
    (hallow : policy.allowed_operations.any
      (fun op => eqIgnoreAsciiCase op "SELECT") = true) :
    validateStatementType policy (.query lc) = .ok () := by
  simp [validateStatementType, statementType, hallow]

theorem validateAllStatements_ok_of_queries (policy : SafetyPolicy)
    (hallow : policy.allowed_operations.any
      (fun op => eqIgnoreAsciiCase op "SELECT") = true) :
    ∀ statements : List Stmt, statements.all isQueryStmt = true →
      validateAllStatements policy statements = .ok ()
  | [], _ => rfl
  | s :: rest, h => by
    rw [List.all_cons, Bool.and_eq_true] at h
    obtain ⟨hs, hrest⟩ := h
    cases s with
    | query lc =>
      rw [validateAllStatements, validateStatementType_query_ok policy lc hallow]
      exact validateAllStatements_ok_of_queries policy hallow rest hrest
    | _ => simp [isQueryStmt] at hs

theorem validateAllStatements_error_of_unsupported (policy : SafetyPolicy) :
    ∀ statements : List Stmt,
      (∃ s ∈ statements, statementType s = none) →
      ∃ e, validateAllStatements policy statements = .error e
  | [], h => absurd h (by simp)
  | s :: rest, h => by
    rw [validateAllStatements]
    cases hs : validateStatementType policy s with
    | error e => exact ⟨e, rfl⟩
    | ok _ =>
      apply validateAllStatements_error_of_unsupported policy rest
      obtain ⟨s0, hmem, hnone⟩ := h
      rcases List.mem_cons.mp hmem with heq | hmem0
      · subst heq
        rw [validateStatementType, hnone] at hs
        exact absurd hs (by simp)
      · exact ⟨s0, hmem0, hnone⟩

/-- Claim C2: for every single-statement SELECT query with no literal
LIMIT clause that passes the allow-list check, `validate` succeeds and
returns the input text with its trailing semicolons removed and exactly
one ` LIMIT <default_limit>` appended, the rest preserved byte-for-byte. -/
theorem claimC2 (v : QueryValidator) (sql : String) (lc : Option LimitClause)
    (hallow : v.policy.allowed_operations.any
      (fun op => eqIgnoreAsciiCase op "SELECT") = true)
    (hnolimit : extractLimitFromQuery lc = none) :
    v.validate sql [.query lc] =
      .ok (trimEndSemicolons sql ++ " LIMIT " ++ toString v.policy.default_limit) := by
  rw [QueryValidator.validate]
  have hall : ([Stmt.query lc].all isQueryStmt) = true := by simp [isQueryStmt]
  rw [if_neg (by simp), validateAllStatements_ok_of_queries v.policy hallow _ hall]
  simp [applyLimitPolicy, hall, extractLimit, hnolimit]

/-- Witness for C2 at the repository's own test fixture:
`SELECT * FROM users` under `samplePolicy` becomes
`SELECT * FROM users LIMIT 1000`. -/
theorem claimC2_witness :
    (QueryValidator.new samplePolicy "postgresql").validate
      "SELECT * FROM users" [.query none] = .ok "SELECT * FROM users LIMIT 1000" :=
  claimC2 (QueryValidator.new samplePolicy "postgresql") "SELECT * FROM users"
    none (by decide) (by decide)

/-- Claim C5: a single-statement SELECT with a literal LIMIT within
`max_limit` that passes the allow-list check is returned unchanged; and a
batch that is not entirely SELECT-class and passes the allow-list check is
returned unchanged with no limit rewriting. -/
theorem claimC5 :
    (∀ (v : QueryValidator) (sql : String) (lc : Option LimitClause) (n : Nat),
      v.policy.allowed_operations.any
        (fun op => eqIgnoreAsciiCase op "SELECT") = true →
      extractLimitFromQuery lc = some n →
      n ≤ v.policy.max_limit →
      v.validate sql [.query lc] = .ok sql) ∧
    (∀ (v : QueryValidator) (sql : String) (statements : List Stmt),
      validateAllStatements v.policy statements = .ok () →
      statements.all isQueryStmt = false →
      v.validate sql statements = .ok sql) := by
  constructor
  · intro v sql lc n hallow hlim hle
    rw [QueryValidator.validate]
    have hall : ([Stmt.query lc].all isQueryStmt) = true := by simp [isQueryStmt]
    rw [if_neg (by simp),
      validateAllStatements_ok_of_queries v.policy hallow _ hall]
    simp only [applyLimitPolicy, hall, extractLimit, hlim]
    rw [if_neg (by simp), if_neg (by omega)]
  · intro v sql statements hok hnotall
    have hne : statements ≠ [] := by
      intro h
      subst h
      simp at hnotall
    rw [QueryValidator.validate, if_neg (by simpa using hne), hok]
    simp [applyLimitPolicy, hnotall]

/-- Witness for C5: `SELECT * FROM users LIMIT 50` is returned unchanged
under `samplePolicy`, and the non-SELECT batch `DELETE FROM users` is
returned unchanged under a policy permitting DELETE. -/
theorem claimC5_witness :
    (QueryValidator.new samplePolicy "postgresql").validate
      "SELECT * FROM users LIMIT 50"
      [.query (some (.limitOffset (some (.value (.number "50")))))] =
        .ok "SELECT * FROM users LIMIT 50" ∧
    (QueryValidator.new
        { samplePolicy with allowed_operations := ["DELETE"] }
        "postgresql").validate
      "DELETE FROM users WHERE id = 1" [.deleteStmt] =
        .ok "DELETE FROM users WHERE id = 1" :=
  ⟨claimC5.1 (QueryValidator.new samplePolicy "postgresql")
      "SELECT * FROM users LIMIT 50"
      (some (.limitOffset (some (.value (.number "50"))))) 50
      (by decide) (by decide) (by decide),
   claimC5.2 (QueryValidator.new
        { samplePolicy with allowed_operations := ["DELETE"] }
        "postgresql")
      "DELETE FROM users WHERE id = 1" [.deleteStmt]
      (by decide) (by decide)⟩

/-- Claim C4: every batch containing a statement that maps to none of the
ten named classes makes `validate` fail, whatever the policy's
`allowed_operations`. -/
theorem claimC4 (v : QueryValidator) (sql : String) (statements : List Stmt)
    (h : ∃ s ∈ statements, statementType s = none) :
    ∃ e, v.validate sql statements = .error e := by
  have hne : statements ≠ [] := by
    rintro rfl
    simp at h
  obtain ⟨e, he⟩ := validateAllStatements_error_of_unsupported v.policy statements h
  refine ⟨e, ?_⟩
  rw [QueryValidator.validate, if_neg (by simpa using hne), he]

/-- Witness for C4: a policy allowing every class name and even the
string UNSUPPORTED still rejects a batch containing an unclassified
statement. -/
theorem claimC4_witness :
    ∃ e, (QueryValidator.new
      { samplePolicy with allowed_operations :=
          ["SELECT", "EXPLAIN", "SHOW", "INSERT", "UPDATE", "DELETE",
           "CREATE", "DROP", "ALTER", "TRUNCATE", "UNSUPPORTED"] }
      "postgresql").validate "BEGIN" [.other] = .error e :=
  claimC4 (QueryValidator.new
      { samplePolicy with allowed_operations :=
          ["SELECT", "EXPLAIN", "SHOW", "INSERT", "UPDATE", "DELETE",
           "CREATE", "DROP", "ALTER", "TRUNCATE", "UNSUPPORTED"] }
      "postgresql") "BEGIN" [.other] ⟨.other, by decide, rfl⟩

/-- Claim C9: every dialect tag other than `postgresql` and `mysql`
silently selects the PostgreSQL dialect — constructing the validator is
total (it cannot fail) and yields a validator identical to one built with
the `postgresql` tag. -/
theorem claimC9 (policy : SafetyPolicy) (dbType : String)
    (h1 : dbType ≠ "postgresql") (h2 : dbType ≠ "mysql") :
    QueryValidator.new policy dbType = QueryValidator.new policy "postgresql" := by
  simp [QueryValidator.new, dialectFor, h1, h2]

/-- Witness for C9 at the unrecognized tags `sqlite` and the empty
string. -/
theorem claimC9_witness :
    QueryValidator.new samplePolicy "sqlite" =
      QueryValidator.new samplePolicy "postgresql" ∧
    QueryValidator.new samplePolicy "" =
      QueryValidator.new samplePolicy "postgresql" :=
  ⟨claimC9 samplePolicy "sqlite" (by decide) (by decide),
   claimC9 samplePolicy "" (by decide) (by decide)⟩

/-- Counterexample to claim C1 as stated.  In the two-statement batch
`SELECT 1; SELECT 2 LIMIT 50` every statement is SELECT-class, the
allow-list check passes, and the second statement carries a literal LIMIT
50 exceeding `max_limit = 10`; yet `validate` does not fail with
`LimitExceeded` — `extract_limit` only inspects the first query, finds no
limit, and the batch is rewritten with an appended default LIMIT. -/
theorem claimC1_counterexample :
    c1Stmts.all isQueryStmt = true ∧
    c1Stmts.any (exceedsMax c1Policy.max_limit) = true ∧
    validateAllStatements c1Policy c1Stmts = .ok () ∧
    (QueryValidator.new c1Policy "postgresql").validate
      "SELECT 1; SELECT 2 LIMIT 50" c1Stmts =
        .ok "SELECT 1; SELECT 2 LIMIT 50 LIMIT 100" := by
  refine ⟨by decide, by decide, by decide, by decide⟩

/-- Claim C1 as amended: for every batch that passes the allow-list check,
in which every statement is SELECT-class and the FIRST statement carries a
literal numeric LIMIT greater than `max_limit`, `validate` fails with
`LimitExceeded` carrying the requested value and the maximum, and never
returns the original or a rewritten SQL string — the limit is never
silently clamped. -/
theorem claimC1_amended (v : QueryValidator) (sql : String)
    (lc : Option LimitClause) (rest : List Stmt) (n : Nat)
    (hallow : v.policy.allowed_operations.any
      (fun op => eqIgnoreAsciiCase op "SELECT") = true)
    (hrest : rest.all isQueryStmt = true)
    (hlim : extractLimitFromQuery lc = some n)
    (hgt : n > v.policy.max_limit) :
    v.validate sql (.query lc :: rest) =
      .error (.limitExceeded n v.policy.max_limit) := by
  rw [QueryValidator.validate]
  have hall : ((Stmt.query lc :: rest).all isQueryStmt) = true := by
    simp [isQueryStmt, hrest]
  rw [if_neg (by simp),
    validateAllStatements_ok_of_queries v.policy hallow _ hall]
  simp only [applyLimitPolicy, hall, extractLimit, hlim]
  rw [if_neg (by simp), if_pos hgt]

/-- Witness for the amended C1 at the spec's own example:
`SELECT * FROM users LIMIT 50000` against `max_limit = 10000` fails with
`LimitExceeded(50000, 10000)`. -/
theorem claimC1_amended_witness :
    (QueryValidator.new samplePolicy "postgresql").validate
      "SELECT * FROM users LIMIT 50000"
      [.query (some (.limitOffset (some (.value (.number "50000")))))] =
        .error (.limitExceeded 50000 10000) :=
  claimC1_amended (QueryValidator.new samplePolicy "postgresql")
    "SELECT * FROM users LIMIT 50000"
    (some (.limitOffset (some (.value (.number "50000"))))) [] 50000
    (by decide) (by decide) (by decide) (by decide)

theorem validateAllStatements_error_first_disallowed (policy : SafetyPolicy) :
    ∀ statements : List Stmt,
      (∀ s ∈ statements, statementType s ≠ none) →
      (∃ s ∈ statements, ∃ t, statementType s = some t ∧
        policy.allowed_operations.any (fun op => eqIgnoreAsciiCase op t) = false) →
      ∃ t, (∃ s ∈ statements, statementType s = some t) ∧
        policy.allowed_operations.any (fun op => eqIgnoreAsciiCase op t) = false ∧
        validateAllStatements policy statements =
          .error (.operationNotAllowed t policy.allowed_operations)
  | [], _, hbad => absurd hbad (by simp)
  | s :: rest, hsupp, hbad => by
    obtain ⟨t0, ht0⟩ := Option.ne_none_iff_exists'.mp (hsupp s (List.mem_cons_self s rest))
    by_cases hdis : policy.allowed_operations.any (fun op => eqIgnoreAsciiCase op t0) = false
    · refine ⟨t0, ⟨s, List.mem_cons_self s rest, ht0⟩, hdis, ?_⟩
      rw [validateAllStatements, validateStatementType, ht0]
      simp [hdis]
    · have hhead : validateStatementType policy s = .ok () := by
        rw [validateStatementType, ht0]
        simp [Bool.of_not_eq_false hdis]
      have hbadrest : ∃ s ∈ rest, ∃ t, statementType s = some t ∧
          policy.allowed_operations.any (fun op => eqIgnoreAsciiCase op t) = false := by
        obtain ⟨s1, hmem1, t1, ht1, hdis1⟩ := hbad
        rcases List.mem_cons.mp hmem1 with heq | hmem1'
        · subst heq
          rw [ht0] at ht1
          cases Option.some.inj ht1
          exact absurd hdis1 hdis
        · exact ⟨s1, hmem1', t1, ht1, hdis1⟩
      obtain ⟨t, ⟨s2, hmem2, ht2⟩, hdis2, herr⟩ :=
        validateAllStatements_error_first_disallowed policy rest
          (fun s' hs' => hsupp s' (List.mem_cons_of_mem _ hs')) hbadrest
      refine ⟨t, ⟨s2, List.mem_cons_of_mem _ hmem2, ht2⟩, hdis2, ?_⟩
      rw [validateAllStatements, hhead, herr]

/-- Counterexample to claim C3 as stated.  The batch
`BEGIN; DELETE FROM users` contains a statement (the delete) whose class
DELETE is case-insensitively absent from the permitted set `[SELECT]`,
yet `validate` fails with the unconditional unsupported-statement error
for the transaction statement, not with an `OperationNotAllowed` error. -/
theorem claimC3_counterexample :
    (∃ s ∈ c3Stmts, statementType s = some "DELETE" ∧
      samplePolicy.allowed_operations.any
        (fun op => eqIgnoreAsciiCase op "DELETE") = false) ∧
    (QueryValidator.new samplePolicy "postgresql").validate
      "BEGIN; DELETE FROM users" c3Stmts =
        .error .unsupportedStatement ∧
    isOperationNotAllowed ValidationError.unsupportedStatement = false := by
  refine ⟨⟨.deleteStmt, by decide, by decide, by decide⟩, by decide, by decide⟩

/-- Claim C3 as amended: for every batch all of whose statements map to
one of the ten named classes, if some statement's class is
(case-insensitively) absent from `allowed_operations` then `validate`
fails with an `OperationNotAllowed` error naming a rejected class of the
batch and echoing the full permitted set, and never returns the original
or rewritten SQL; membership of one class never grants another. -/
theorem claimC3_amended (v : QueryValidator) (sql : String)
    (statements : List Stmt)
    (hsupp : ∀ s ∈ statements, statementType s ≠ none)
    (hbad : ∃ s ∈ statements, ∃ t, statementType s = some t ∧
      v.policy.allowed_operations.any (fun op => eqIgnoreAsciiCase op t) = false) :
    ∃ t, (∃ s ∈ statements, statementType s = some t) ∧
      v.policy.allowed_operations.any (fun op => eqIgnoreAsciiCase op t) = false ∧
      v.validate sql statements =
        .error (.operationNotAllowed t v.policy.allowed_operations) := by
  obtain ⟨t, hwit, hdis, herr⟩ :=
    validateAllStatements_error_first_disallowed v.policy statements hsupp hbad
  have hne : statements ≠ [] := by
    rintro rfl
    simp at hbad
  refine ⟨t, hwit, hdis, ?_⟩
  rw [QueryValidator.validate, if_neg (by simpa using hne), herr]

/-- Witness for the amended C3 at the spec's own example:
`DELETE FROM users` under a SELECT-only policy. -/
theorem claimC3_amended_witness :
    ∃ t, (∃ s ∈ [Stmt.deleteStmt], statementType s = some t) ∧
      samplePolicy.allowed_operations.any
        (fun op => eqIgnoreAsciiCase op t) = false ∧
      (QueryValidator.new samplePolicy "postgresql").validate
        "DELETE FROM users" [Stmt.deleteStmt] =
          .error (.operationNotAllowed t samplePolicy.allowed_operations) :=
  claimC3_amended (QueryValidator.new samplePolicy "postgresql")
    "DELETE FROM users" [Stmt.deleteStmt]
    (by decide)
    ⟨.deleteStmt, by decide, "DELETE", rfl, by decide⟩

theorem enc_token_data (t : String) :
    ("enc:" ++ t).data = 'e' :: 'n' :: 'c' :: ':' :: t.data := by
  simp [String.data_append]

theorem enc_token_isPre (t : String) :
    "enc:".data.isPrefixOf (("enc:" ++ t).data) = true := by
  rw [enc_token_data]
  simp [List.isPrefixOf]

theorem enc_token_drop (t : String) :
    String.mk ((("enc:" ++ t).data).drop 4) = t := by
  rw [enc_token_data]
  rfl

/-- Claim C6: for every plaintext p, every key, and every 12-byte nonce
the encryptor may internally generate, `decrypt(encrypt(p, k), k)`
succeeds and returns exactly p.  The hypotheses are the contracts of the
external crates the source composes: the AEAD inverts its own encryption
under the same key and nonce, the base64 STANDARD engine decodes what it
encodes, and UTF-8 decoding inverts UTF-8 encoding. -/
theorem claimC6 (ext : CryptoExternals) (key nonceBytes : List Nat)
    (p : String)
    (hn : nonceBytes.length = NONCE_SIZE)
    (haead : ext.aeadDecrypt key nonceBytes
      (ext.aeadEncrypt key nonceBytes (ext.utf8Encode p)) =
        some (ext.utf8Encode p))
    (hb64 : ext.b64Decode (ext.b64Encode
        (nonceBytes ++ ext.aeadEncrypt key nonceBytes (ext.utf8Encode p))) =
      some (nonceBytes ++ ext.aeadEncrypt key nonceBytes (ext.utf8Encode p)))
    (hutf8 : ext.utf8Decode (ext.utf8Encode p) = some p) :
    Crypto.decrypt ext key (Crypto.encrypt ext key nonceBytes p) = .ok p := by
  rw [Crypto.encrypt, Crypto.decrypt]
  rw [if_pos (enc_token_isPre _), enc_token_drop, hb64]
  have htake : (nonceBytes ++ ext.aeadEncrypt key nonceBytes (ext.utf8Encode p)).take
      NONCE_SIZE = nonceBytes := by
    rw [← hn]
    exact List.take_left _ _
  have hdrop : (nonceBytes ++ ext.aeadEncrypt key nonceBytes (ext.utf8Encode p)).drop
      NONCE_SIZE = ext.aeadEncrypt key nonceBytes (ext.utf8Encode p) := by
    rw [← hn]
    exact List.drop_left _ _
  have hlen : ¬((nonceBytes ++ ext.aeadEncrypt key nonceBytes (ext.utf8Encode p)).length <
      NONCE_SIZE) := by
    rw [List.length_append, hn]
    omega
  simp [hlen, htake, hdrop, haead, hutf8]
  omega

/-- Claim C7: `decrypt` fails with three pairwise-distinct diagnosable
errors when the input lacks the `enc:` prefix, when the remainder is not
valid base64, and when the decoded bytes are shorter than the 12-byte
nonce; and every token whose authentication-tag verification fails
(`aeadDecrypt` returns `none`, i.e. tampering or a wrong key) yields the
single generic decryption-failed error — in every case an error is
returned and never any plaintext. -/
theorem claimC7 (ext : CryptoExternals) (key : List Nat) :
    (∀ s : String, "enc:".data.isPrefixOf s.data = false →
      Crypto.decrypt ext key s = .error .invalidFormat) ∧
    (∀ s : String, "enc:".data.isPrefixOf s.data = true →
      ext.b64Decode (String.mk (s.data.drop 4)) = none →
      Crypto.decrypt ext key s = .error .invalidBase64) ∧
    (∀ (s : String) (data : List Nat), "enc:".data.isPrefixOf s.data = true →
      ext.b64Decode (String.mk (s.data.drop 4)) = some data →
      data.length < NONCE_SIZE →
      Crypto.decrypt ext key s = .error .invalidData) ∧
    (∀ (s : String) (data : List Nat), "enc:".data.isPrefixOf s.data = true →
      ext.b64Decode (String.mk (s.data.drop 4)) = some data →
      ¬ data.length < NONCE_SIZE →
      ext.aeadDecrypt key (data.take NONCE_SIZE) (data.drop NONCE_SIZE) = none →
      Crypto.decrypt ext key s = .error .decryptionFailed) ∧
    (DecryptError.invalidFormat ≠ DecryptError.invalidBase64 ∧
     DecryptError.invalidFormat ≠ DecryptError.invalidData ∧
     DecryptError.invalidBase64 ≠ DecryptError.invalidData ∧
     DecryptError.decryptionFailed ≠ DecryptError.invalidFormat ∧
     DecryptError.decryptionFailed ≠ DecryptError.invalidBase64 ∧
     DecryptError.decryptionFailed ≠ DecryptError.invalidData) := by
  refine ⟨?_, ?_, ?_, ?_, by decide, by decide, by decide, by decide, by decide, by decide⟩
  · intro s h
    rw [Crypto.decrypt, if_neg (by simp [h])]
  · intro s h hb
    rw [Crypto.decrypt, if_pos h, hb]
  · intro s data h hb hlen
    rw [Crypto.decrypt, if_pos h, hb]
    simp [hlen]
  · intro s data h hb hlen haead
    rw [Crypto.decrypt, if_pos h, hb]
    simp [hlen, haead]

/-- Claim C10: for every well-formed token whose tag verification
succeeds but whose decrypted bytes are not valid UTF-8, `decrypt` fails
with the invalid-UTF-8 error — an error distinct from every member of the
spec's cipher error taxonomy (invalid format, invalid base64 encoding,
authentication/decryption failure). -/
theorem claimC10 (ext : CryptoExternals) (key : List Nat) :
    (∀ (s : String) (data ptBytes : List Nat),
      "enc:".data.isPrefixOf s.data = true →
      ext.b64Decode (String.mk (s.data.drop 4)) = some data →
      ¬ data.length < NONCE_SIZE →
      ext.aeadDecrypt key (data.take NONCE_SIZE) (data.drop NONCE_SIZE) =
        some ptBytes →
      ext.utf8Decode ptBytes = none →
      Crypto.decrypt ext key s = .error .invalidUtf8) ∧
    (DecryptError.invalidUtf8 ≠ DecryptError.invalidFormat ∧
     DecryptError.invalidUtf8 ≠ DecryptError.invalidBase64 ∧
     DecryptError.invalidUtf8 ≠ DecryptError.invalidData ∧
     DecryptError.invalidUtf8 ≠ DecryptError.decryptionFailed) := by
  refine ⟨?_, by decide, by decide, by decide, by decide⟩
  intro s data ptBytes h hb hlen haead hutf8
  rw [Crypto.decrypt, if_pos h, hb]
  simp [hlen, haead, hutf8]

/-- Claim C8: `get_or_create_master_key` is idempotent — after any
successful call, a second call against the unmodified resulting store
returns the identical key and leaves the store unchanged (whatever fresh
randomness the second call would draw); and the read path never deletes
or rewrites existing key material (when the key file existed, the store
is returned untouched).  The hypotheses are the base64 engine's
round-trip contract and `generate_key`'s 32-byte contract, both at the
fresh key actually drawn. -/
theorem claimC8 (b64e : List Nat → String) (b64d : String → Option (List Nat))
    (st : KeyStoreState) (freshKey freshKey2 k : List Nat)
    (st' : KeyStoreState)
    (hrt : b64d (trimString (b64e freshKey)) = some freshKey)
    (hlen : freshKey.length = 32)
    (hfirst : getOrCreateMasterKey b64e b64d st freshKey = .ok (k, st')) :
    getOrCreateMasterKey b64e b64d st' freshKey2 = .ok (k, st') ∧
    (∀ c, st.keyFile = some c → st' = st) := by
  cases hst : st.keyFile with
  | some c =>
    rw [getOrCreateMasterKey, hst] at hfirst
    cases hd : b64d (trimString c) with
    | none => simp [hd] at hfirst
    | some decoded =>
      simp only [hd] at hfirst
      by_cases hsz : decoded.length ≠ 32
      · rw [if_pos hsz] at hfirst
        exact absurd hfirst (by simp)
      · rw [if_neg hsz] at hfirst
        simp only [Except.ok.injEq, Prod.mk.injEq] at hfirst
        obtain ⟨hk, hst'⟩ := hfirst
        subst hk
        subst hst'
        refine ⟨?_, fun _ _ => rfl⟩
        rw [getOrCreateMasterKey, hst]
        simp [hd, hsz]
  | none =>
    rw [getOrCreateMasterKey, hst] at hfirst
    simp only [Except.ok.injEq, Prod.mk.injEq] at hfirst
    obtain ⟨hk, hst'⟩ := hfirst
    subst hk
    subst hst'
    constructor
    · rw [getOrCreateMasterKey]
      simp [hrt, hlen]
    · intro c hc
      exact Option.noConfusion hc

/-- Witness for C6: a concrete round-trip through `encrypt` then
`decrypt` under the witness externals. -/
theorem claimC6_witness :
    Crypto.decrypt happyExternals [0] (Crypto.encrypt happyExternals [0]
      (List.replicate 12 65) "a") = .ok "a" :=
  claimC6 happyExternals [0] (List.replicate 12 65) "a"
    (by decide) (by decide) (by decide) (by decide)

/-- Witness for C7: the four failure paths at concrete inputs — a string
without the prefix, a prefix with undecodable remainder, a decoded
payload of two bytes, and a 12-byte payload whose tag verification
fails. -/
theorem claimC7_witness :
    Crypto.decrypt failingExternals [] "plain" = .error .invalidFormat ∧
    Crypto.decrypt failingExternals [] "enc:" = .error .invalidBase64 ∧
    Crypto.decrypt failingExternals [] "enc:ab" = .error .invalidData ∧
    Crypto.decrypt failingExternals [] "enc:abcdefghijkl" =
      .error .decryptionFailed := by
  obtain ⟨h1, h2, h3, h4, _⟩ := claimC7 failingExternals []
  exact ⟨h1 "plain" (by decide),
    h2 "enc:" (by decide) (by decide),
    h3 "enc:ab" [97, 98] (by decide) (by decide) (by decide),
    h4 "enc:abcdefghijkl" [97, 98, 99, 100, 101, 102, 103, 104, 105, 106, 107, 108]
      (by decide) (by decide) (by decide) (by decide)⟩

/-- Witness for C10: a 12-byte token under externals whose AEAD accepts
and whose UTF-8 decoding rejects. -/
theorem claimC10_witness :
    Crypto.decrypt utf8FailingExternals [] "enc:abcdefghijkl" =
      .error .invalidUtf8 := by
  obtain ⟨h1, _⟩ := claimC10 utf8FailingExternals []
  exact h1 "enc:abcdefghijkl"
    [97, 98, 99, 100, 101, 102, 103, 104, 105, 106, 107, 108] []
    (by decide) (by decide) (by decide) (by decide) (by decide)

/-- Witness for C8: after first-time creation of a 32-byte key in an
empty store, the second call returns the identical key and the identical
store. -/
theorem claimC8_witness :
    getOrCreateMasterKey wB64e wB64d
      { keyFile := some (wB64e (List.replicate 32 65)) }
      (List.replicate 32 66) =
      .ok (List.replicate 32 65,
        { keyFile := some (wB64e (List.replicate 32 65)) }) :=
  (claimC8 wB64e wB64d { keyFile := none } (List.replicate 32 65)
    (List.replicate 32 66) (List.replicate 32 65)
    { keyFile := some (wB64e (List.replicate 32 65)) }
    (by decide) (by decide) (by decide)).1
